import Mathlib

/-!
# Verification of the ai-image-analyzer orchestration layer

A shallow embedding of the video-analysis pipeline:

* `src/classes/video_data.py` — URL validation and stream download
  (`VideoData`, `mkVideoData`, `downloadStream`);
* `src/services/prep_service.py` — frame extraction
  (`extractLoop`, `extractionOfVideoFrames`);
* `src/classes/yolo_model.py` — model loading and per-frame inference
  (`loadModel`, `yoloModelPredict`, `pyDictComp`, `predictYolov8Summary`);
* `src/services/image_analysis_service.py` — per-frame analysis and
  result consolidation (`runImageAnalysis`, `consolidateResults`, with a
  faithful model of `collections.Counter` in-place addition);
* `src/api/index.py` — the `analyze_video` HTTP handler (`analyzeVideo`).

External collaborators (the `validators` library, `pytube`, `torch.hub`,
`ultralytics`, `cv2` decoding, the filesystem) are parameters of the
embedding: the environment supplies the validator predicate, the available
stream formats, the downloaded file path, the filesystem state, the decoded
frame sequence and the per-frame raw detections of the pretrained model.
-/

/-! ## Python value and error model -/

/-- The subset of Python runtime values a `target_name` argument can take:
a string, a list of strings (the dashboard multi-select), or `None`
(the dashboard custom-class path with the checkbox unticked). -/
inductive PyVal where
  | str (s : String)
  | list (l : List String)
  | none
  deriving DecidableEq, Repr

/-- Python exceptions raised by the embedded code, carrying `str(e)`. -/
inductive PyError where
  | valueError (msg : String)
  | typeError (msg : String)
  | fileNotFoundError (msg : String)
  | attributeError (msg : String)
  | validationError (msg : String)
  deriving DecidableEq, Repr

/-- `str(e)`: the message of a Python exception. -/
def pyErrorDetail : PyError → String
  | .valueError m => m
  | .typeError m => m
  | .fileNotFoundError m => m
  | .attributeError m => m
  | .validationError m => m

/-- `needle` occurs as a prefix of `haystack` (character lists). -/
def listStartsWith : List Char → List Char → Bool
  | [], _ => true
  | _ :: _, [] => false
  | a :: as, b :: bs => a == b && listStartsWith as bs

/-- `needle` occurs contiguously inside `haystack` (character lists). -/
def listOccursIn (needle : List Char) : List Char → Bool
  | [] => listStartsWith needle []
  | c :: rest => listStartsWith needle (c :: rest) || listOccursIn needle rest

/-- Python `needle in haystack` on strings: substring containment. -/
def strContains (haystack needle : String) : Bool :=
  listOccursIn needle.toList haystack.toList

/-- Python `str.lower()` (ASCII lowering, character-wise). -/
def strLower (s : String) : String := ⟨s.toList.map Char.toLower⟩

/-- Evaluating `target_name.lower()`: succeeds only on a string; a list or
`None` has no `lower` attribute and raises `AttributeError`
(`yolo_model.py` lines 255 and 337). -/
def pyTargetLower : PyVal → Except PyError String
  | .str s => .ok (strLower s)
  | .list _ => .error (.attributeError "list object has no attribute lower")
  | .none => .error (.attributeError "NoneType object has no attribute lower")

/-! ## Configuration constants (`src/utils/default_variables.py`) -/

/-- `model_confidence_value = 0.45`. -/
def modelConfidenceValue : ℚ := 0.45

/-- `video_url`. -/
def defaultVideoUrl : String := "https://youtu.be/MNn9qKG2UFI"

/-- `target_item = "car"`. -/
def defaultTargetItem : String := "car"

/-- `default_video_extension = "mp4"`. -/
def defaultVideoExtension : String := "mp4"

/-- `model_target_class = "person"` (default `target_name` of `predict`). -/
def modelTargetClass : String := "person"

/-- `total_number_frames = 100`. -/
def totalNumberFrames : Nat := 100

/-! ## `collections.Counter` model

`consolidate_results` accumulates per-frame counts with `Counter` in-place
addition. A `Counter` built from a Python dict is its insertion-ordered
association list of class name to count; counts are occurrence counts,
hence naturals. -/

/-- `Counter.__getitem__` / `dict.get(k, 0)`: value of the first entry with
the given key, `0` when absent. -/
def counterLookup : List (String × Nat) → String → Nat
  | [], _ => 0
  | p :: rest, k => if p.1 = k then p.2 else counterLookup rest k

/-- The keys of a counter, in insertion order. -/
def counterKeys (l : List (String × Nat)) : List String := l.map Prod.fst

/-- A Python dict has no duplicate keys. -/
def nodupKeys (l : List (String × Nat)) : Prop := (counterKeys l).Nodup

instance (l : List (String × Nat)) : Decidable (nodupKeys l) :=
  inferInstanceAs (Decidable (counterKeys l).Nodup)

/-- `self[k] = v` on a dict: replace the value of an existing key in place,
else append the new entry at the end (insertion-order semantics). -/
def counterSet : List (String × Nat) → String → Nat → List (String × Nat)
  | [], k, v => [(k, v)]
  | p :: rest, k, v => if p.1 = k then (k, v) :: rest else p :: counterSet rest k v

/-- The update loop of `Counter.__iadd__`:
`for elem, count in other.items(): self[elem] = self[elem] + count`. -/
def counterMergeAdd (self other : List (String × Nat)) : List (String × Nat) :=
  other.foldl (fun acc p => counterSet acc p.1 (counterLookup acc p.1 + p.2)) self

/-- `Counter._keep_positive`: drop the entries whose count is not `> 0`. -/
def counterKeepPositive (l : List (String × Nat)) : List (String × Nat) :=
  l.filter (fun p => decide (0 < p.2))

/-- `Counter.__iadd__` (`target_items_counts += Counter(...)`,
`image_analysis_service.py` line 121): in-place addition followed by
`_keep_positive`. -/
def counterIAdd (self other : List (String × Nat)) : List (String × Nat) :=
  counterKeepPositive (counterMergeAdd self other)

/-! ## `VideoData` (`src/classes/video_data.py`) -/

/-- `VideoData`: stores the input URL (`self.url = url`). -/
structure VideoData where
  url : String
  deriving DecidableEq, Repr

/-- Message of the `ValueError` raised by `_validate_video_url`. -/
def invalidUrlMsg (url : String) : String :=
  ">>> URL " ++ url ++ " is not valid!"

/-- Message of the `TypeError` raised by `download_stream` when no stream
matches the requested container format. -/
def noStreamMsg (ext url : String) : String :=
  ">>> No " ++ ext ++ " streams available for " ++ url ++ "!"

/-- `VideoData.__init__`: store the URL, then `_validate_video_url` checks
it with the external `validators.url` predicate and raises `ValueError` if
the check fails.  The constructor performs no network or decode operation:
downloading lives only in `downloadStream`. -/
def mkVideoData (validatorsUrl : String → Bool) (url : String) :
    Except PyError VideoData :=
  let vd : VideoData := ⟨url⟩
  if validatorsUrl vd.url then .ok vd else .error (.valueError (invalidUrlMsg vd.url))

/-- External state seen by download and frame extraction: the container
formats of the streams `pytube` offers for the video, the path `pytube`
writes the download to, the filesystem, and the sequence of frames `cv2`
can decode from the file, in read order. -/
structure Cv2Env where
  streamFormats : List String
  downloadPath : String
  fileExists : String → Bool
  decodedFrames : List Nat

/-- `VideoData.download_stream`: filter the available streams by the
requested `file_extension`; raise `TypeError` when none matches, otherwise
download the first matching stream and return the output file path
(the actual transfer is `pytube`, external). -/
def downloadStream (vd : VideoData) (env : Cv2Env) (fileExtension : String) :
    Except PyError String :=
  let videoStreams := env.streamFormats.filter (fun s => s = fileExtension)
  if videoStreams.isEmpty then .error (.typeError (noStreamMsg fileExtension vd.url))
  else .ok env.downloadPath

/-! ## Frame extraction (`src/services/prep_service.py`) -/

/-- Message of the `FileNotFoundError` raised by
`extraction_of_video_frames`. -/
def fileNotFoundMsg (path : String) : String :=
  ">>> Filepath " ++ path ++ " does not exist!!"

/-- The `while True` read loop of `extraction_of_video_frames`
(lines 110-120): read a frame; stop when the stream is exhausted
(`not ret`) or when `frame_idx == 500`; otherwise record the frame under
the current index and increment it. -/
def extractLoop : List α → Nat → List (Nat × α)
  | [], _ => []
  | f :: rest, idx => if idx = 500 then [] else (idx, f) :: extractLoop rest (idx + 1)

/-- `DataPreparationService.extraction_of_video_frames`: download the
video, raise `FileNotFoundError` when the downloaded path does not exist,
then run the read loop.  When no frame can be read the loop body never
executes and the empty mapping is returned — no error is raised. -/
def extractionOfVideoFrames (vd : VideoData) (env : Cv2Env)
    (fileExtension : String) : Except PyError (List (Nat × Nat)) :=
  match downloadStream vd env fileExtension with
  | .error e => .error e
  | .ok path =>
    if env.fileExists path then .ok (extractLoop env.decodedFrames 0)
    else .error (.fileNotFoundError (fileNotFoundMsg path))

/-! ## Model loading (`src/classes/yolo_model.py`, `_load_model`) -/

/-- `accepted_model_family = ["yolov5", "yolov8"]`. -/
def acceptedModelFamily : List String := ["yolov5", "yolov8"]

/-- `available_model_versions` of the `yolov8` branch. -/
def yolov8Versions : List String := ["yolov8n.pt", "yolov8n-seg.pt"]

/-- Message of the `ValueError` raised for an invalid model family. -/
def invalidModelFamilyMsg (family : String) : String :=
  ">>> Invalid model family " ++ family ++ ". Available ones: [yolov5, yolov8]"

/-- Message of the `ValueError` raised for an invalid model version. -/
def invalidModelVersionMsg (version : String) : String :=
  ">> Invalid model version " ++ version ++ "! Available ones listed."

/-- The external operations `_load_model` can perform, in order:
`torch.hub.list`, `torch.hub.load`, `ultralytics.YOLO(...)`.  None of them
downloads or touches a video. -/
inductive ModelLoadEffect where
  | torchHubList
  | torchHubLoad
  | ultralyticsLoad
  deriving DecidableEq, Repr

/-- `YoloModel._load_model`, with the trace of external operations it
performed: the family check comes first and raises before any external
call; the `yolov5` branch asks `torch.hub.list` for the available versions
(supplied here by `hubVersions`) before checking the version; the `yolov8`
branch checks the version against a literal list.  The loaded model is
represented by its (family, version) pair. -/
def loadModel (hubVersions : List String) (family version : String) :
    Except PyError (String × String) × List ModelLoadEffect :=
  if family ∉ acceptedModelFamily then
    (.error (.valueError (invalidModelFamilyMsg family)), [])
  else if family = "yolov5" then
    if version ∉ hubVersions then
      (.error (.valueError (invalidModelVersionMsg version)), [.torchHubList])
    else (.ok (family, version), [.torchHubList, .torchHubLoad])
  else
    if version ∉ yolov8Versions then
      (.error (.valueError (invalidModelVersionMsg version)), [])
    else (.ok (family, version), [.ultralyticsLoad])

/-! ## Inference (`src/classes/yolo_model.py`, `predict` and helpers) -/

/-- The dict comprehension shared by `_predict_yolov5` (lines 252-256) and,
after mapping class ids to names, `_predict_yolov8` (lines 334-338):
`{key: value for key, value in classes_present.items() if key in target_name.lower()}`.
The condition — and with it `target_name.lower()` — is evaluated once per
item, so on an empty detection dict nothing is evaluated and no error can
be raised; on each item, Python `in` between strings is substring
containment. -/
def pyDictComp : List (String × Nat) → PyVal → Except PyError (List (String × Nat))
  | [], _ => .ok []
  | (key, value) :: rest, target => do
    let lowered ← pyTargetLower target
    let tail ← pyDictComp rest target
    pure (if strContains lowered key then (key, value) :: tail else tail)

/-- The metadata step of `_predict_yolov8`: the detections arrive as a
`Counter` of class ids; the comprehension maps each id through
`self.classes_mapping_dict` (here the total map `classesMappingDict` of
the loaded model) and filters by `in target_name.lower()` exactly like the
`yolov5` branch. -/
def predictYolov8Summary (classesMappingDict : Nat → String) :
    List (Nat × Nat) → PyVal → Except PyError (List (String × Nat))
  | [], _ => .ok []
  | (key, value) :: rest, target => do
    let lowered ← pyTargetLower target
    let tail ← predictYolov8Summary classesMappingDict rest target
    pure (if strContains lowered (classesMappingDict key) then
      (classesMappingDict key, value) :: tail else tail)

/-- `not model_confidence`: Python falsiness of a float. -/
def pyFalsyFloat (v : ℚ) : Bool := v = 0

/-- The confidence check at the top of `YoloModel.predict` (lines 384-391):
`if not model_confidence or (model_confidence <= 0 or model_confidence > 1.0)`
silently replaces the value by `dv.model_confidence_value`. -/
def normalizeModelConfidence : Option ℚ → ℚ
  | Option.none => modelConfidenceValue
  | Option.some v =>
    if pyFalsyFloat v ∨ v ≤ 0 ∨ 1 < v then modelConfidenceValue else v

/-- Outcome of `YoloModel.predict`: the confidence actually assigned to the
model before inference, and the filtered class summary (the rendered output
image is external and opaque). -/
structure PredictResult where
  usedConfidence : ℚ
  classSummary : List (String × Nat)
  deriving DecidableEq, Repr

/-- `YoloModel.predict`: normalize the confidence, then run the
family-specific branch; both branches produce their class summary by the
same comprehension over the external model's detections (`detections` is
the name-to-count data the pretrained model reports for the image). -/
def yoloModelPredict (detections : List (String × Nat)) (target : PyVal)
    (modelConfidence : Option ℚ) : Except PyError PredictResult :=
  let conf := normalizeModelConfidence modelConfidence
  match pyDictComp detections target with
  | .error e => .error e
  | .ok summary => .ok ⟨conf, summary⟩

/-! ## Analysis service (`src/services/image_analysis_service.py`) -/

/-- Per-frame analysis record (`AnalysisResults`).  Modelled from the spec:
the class `src/classes/analysis_results.py` is not among the provided
sources; its construction sites show the fields `original_image`,
`output_image` and `inference_results`, and only `inference_results` — the
per-frame class-to-count dict — is ever read again (the DetectionOutcome
of spec section 3, with the opaque images omitted). -/
structure AnalysisResults where
  inference_results : List (String × Nat)
  deriving DecidableEq, Repr

/-- `AnalyzerService`: holds the preparation service (represented by its
`video_obj`), the file extension, and the `target_name` of the original
request. -/
structure AnalyzerService where
  video_obj : VideoData
  file_extension : String
  target_name : PyVal

/-- The response model of `src/classes/analyze_video_response.py`
(lines 4-7): a pydantic `BaseModel` with the required fields
`results : AnalysisResults`, `target_item : str` and `video_url : str`. -/
structure AnalyzeVideoResponse where
  results : AnalysisResults
  target_item : String
  video_url : String
  deriving DecidableEq, Repr

/-- A Python value passed as a keyword argument to the pydantic
constructor: a string, a list of strings, or the `Counter`/record values
the call site supplies. -/
inductive PydVal where
  | str (s : String)
  | list (l : List String)
  | counter (c : List (String × Nat))
  | analysisResults (r : AnalysisResults)
  deriving DecidableEq, Repr

/-- Keyword lookup in the constructor call: the value supplied for a
field name, if any. -/
def pydGet (kwargs : List (String × PydVal)) (field : String) : Option PydVal :=
  (kwargs.find? (fun p => p.1 == field)).map Prod.snd

/-- Pydantic validation of a required `str` field: absent raises
`field required`; a string validates; a list (or any other non-string
value) is not coercible to `str` and raises. -/
def pydStrField (v : Option PydVal) : Except PyError String :=
  match v with
  | Option.none => .error (.validationError "field required")
  | Option.some (.str s) => .ok s
  | Option.some _ => .error (.validationError "str type expected")

/-- Pydantic validation of the required `results : AnalysisResults`
field: absent raises `field required`; a non-`AnalysisResults` value
raises. -/
def pydResultsField (v : Option PydVal) : Except PyError AnalysisResults :=
  match v with
  | Option.none => .error (.validationError "field required")
  | Option.some (.analysisResults r) => .ok r
  | Option.some _ => .error (.validationError "AnalysisResults type expected")

/-- `AnalyzeVideoResponse(**kwargs)`: pydantic validates every declared
field (all three are required, none has a default) against the supplied
keyword arguments, ignoring undeclared keywords such as `summary`
(default config); any missing required field or uncoercible value raises
`ValidationError`. -/
def analyzeVideoResponseInit (kwargs : List (String × PydVal)) :
    Except PyError AnalyzeVideoResponse := do
  let results ← pydResultsField (pydGet kwargs "results")
  let target_item ← pydStrField (pydGet kwargs "target_item")
  let video_url ← pydStrField (pydGet kwargs "video_url")
  .ok ⟨results, target_item, video_url⟩

/-- The `target_items_counts` accumulation of `consolidate_results`
(lines 114-121): start from an empty `Counter` and add each frame's
`inference_results` with `+=`.  The per-frame results arrive keyed by the
contiguous frame indices `0..n-1` produced by `run_image_analysis`,
represented here as an index-ordered list. -/
def consolidateSummaryCounts (inferenceResults : List AnalysisResults) :
    List (String × Nat) :=
  inferenceResults.foldl (fun acc r => counterIAdd acc r.inference_results) []

/-- `AnalyzerService.consolidate_results` (lines 101-128): accumulate the
per-frame counts into `target_items_counts`, then construct the pydantic
response with exactly the keyword arguments of lines 123-128 — `results`
commented out (so absent), `target_item = list(target_items_counts.keys())`
(a list), `video_url = self.prep_service.video_obj.url`, and the
undeclared keyword `summary` — whose validation raises. -/
def consolidateResults (svc : AnalyzerService)
    (inferenceResults : List AnalysisResults) :
    Except PyError AnalyzeVideoResponse :=
  let targetItemsCounts := consolidateSummaryCounts inferenceResults
  analyzeVideoResponseInit
    [("target_item", .list (counterKeys targetItemsCounts)),
      ("video_url", .str svc.video_obj.url),
      ("summary", .counter targetItemsCounts)]

/-- `AnalyzerService.run_image_analysis` (lines 66-99): run `predict` on
every extracted frame in index order with the service's `target_name` and
the default confidence, collecting one `AnalysisResults` per frame; any
inference error aborts the whole analysis.  `infer` is the external
pretrained model: the detections it reports for a given frame. -/
def runImageAnalysis (frames : List (Nat × Nat))
    (infer : Nat → List (String × Nat)) (target : PyVal) :
    Except PyError (List AnalysisResults) :=
  frames.mapM (fun p =>
    match yoloModelPredict (infer p.2) target (some modelConfidenceValue) with
    | .error e => .error e
    | .ok r => .ok ⟨r.classSummary⟩)

/-! ## HTTP handler (`src/api/index.py`) -/

/-- The `ModelChoices` enum of the endpoint. -/
inductive ModelChoices where
  | yolov5
  | yolov8
  deriving DecidableEq, Repr

/-- `get_model_attributes`: family and version for each model choice. -/
def getModelAttributes : ModelChoices → String × String
  | .yolov5 => ("yolov5", "yolov5s")
  | .yolov8 => ("yolov8", "yolov8n.pt")

/-- The query parameters of `POST /analyze_video2`. -/
structure AnalyzeVideoRequest where
  video_url : String
  number_of_frames : Nat
  target_item : String
  model_selection : ModelChoices

/-- The parameter names `DataPreparationService.__init__` accepts besides
`self` (`prep_service.py` line 49: `def __init__(self, video_obj)`). -/
def dataPreparationServiceInitParams : List String := ["video_obj"]

/-- The keyword arguments the handler passes when constructing
`DataPreparationService` (`index.py` lines 104-107). -/
def analyzeVideoPrepServiceKwargs : List String := ["video_obj", "number_frames"]

/-- A Python call binds only when every keyword argument names an accepted
parameter; otherwise it raises `TypeError: unexpected keyword argument`. -/
def pythonKwargsAccepted (params kwargs : List String) : Bool :=
  kwargs.all (fun k => params.contains k)

/-- Message of the `TypeError` raised for the unexpected keyword
argument. -/
def unexpectedKwargMsg : String :=
  "__init__() got an unexpected keyword argument number_frames"

/-- HTTP outcome of the endpoint: a JSON response, or HTTP 500 with
`detail = str(e)`. -/
inductive HttpOutcome where
  | ok (resp : AnalyzeVideoResponse)
  | http500 (detail : String)
  deriving DecidableEq, Repr

/-- One run of the handler: its HTTP outcome, whether the video download
was ever attempted, and whether the frame-extraction loop ever ran. -/
structure HandlerRun where
  outcome : HttpOutcome
  downloadAttempted : Bool
  framesExtracted : Bool
  deriving DecidableEq, Repr

/-- The `analyze_video` endpoint (`index.py` lines 94-123), with every
exception mapped to HTTP 500 by the surrounding `try`/`except`:
construct `VideoData` (validating the URL), construct
`DataPreparationService` — passing the keyword argument `number_frames`,
which its `__init__` does not accept — then load the model, extract
frames, run per-frame inference and consolidate. -/
def analyzeVideo (validatorsUrl : String → Bool) (hubVersions : List String)
    (env : Cv2Env) (infer : Nat → List (String × Nat))
    (req : AnalyzeVideoRequest) : HandlerRun :=
  match mkVideoData validatorsUrl req.video_url with
  | .error e => ⟨.http500 (pyErrorDetail e), false, false⟩
  | .ok videoData =>
    if pythonKwargsAccepted dataPreparationServiceInitParams
        analyzeVideoPrepServiceKwargs then
      match (loadModel hubVersions (getModelAttributes req.model_selection).1
          (getModelAttributes req.model_selection).2).1 with
      | .error e => ⟨.http500 (pyErrorDetail e), false, false⟩
      | .ok _model =>
        match extractionOfVideoFrames videoData env defaultVideoExtension with
        | .error e => ⟨.http500 (pyErrorDetail e), true, false⟩
        | .ok frames =>
          match runImageAnalysis frames infer (.str req.target_item) with
          | .error e => ⟨.http500 (pyErrorDetail e), true, true⟩
          | .ok results =>
            match consolidateResults
                ⟨videoData, defaultVideoExtension, .str req.target_item⟩ results with
            | .error e => ⟨.http500 (pyErrorDetail e), true, true⟩
            | .ok resp => ⟨.ok resp, true, true⟩
    else ⟨.http500 (pyErrorDetail (.typeError unexpectedKwargMsg)), false, false⟩

/-! ## Counter lemmas -/

theorem counterKeys_cons (k : String) (v : Nat) (rest : List (String × Nat)) :
    counterKeys ((k, v) :: rest) = k :: counterKeys rest := rfl

theorem nodupKeys_cons {k : String} {v : Nat} {rest : List (String × Nat)} :
    nodupKeys ((k, v) :: rest) ↔ k ∉ counterKeys rest ∧ nodupKeys rest :=
  List.nodup_cons

theorem counterLookup_eq_zero : ∀ {l : List (String × Nat)} {k : String},
    k ∉ counterKeys l → counterLookup l k = 0
  | [], _, _ => rfl
  | (pk, pv) :: rest, k, h => by
    rw [counterKeys_cons, List.mem_cons] at h
    push_neg at h
    show (if pk = k then pv else counterLookup rest k) = 0
    rw [if_neg (fun hpk => h.1 hpk.symm), counterLookup_eq_zero h.2]

theorem counterLookup_counterSet (l : List (String × Nat)) (k : String)
    (v : Nat) (c : String) :
    counterLookup (counterSet l k v) c
      = if c = k then v else counterLookup l c := by
  induction l with
  | nil =>
    simp only [counterSet, counterLookup]
    split_ifs <;> simp_all [eq_comm]
  | cons p rest ih =>
    obtain ⟨pk, pv⟩ := p
    by_cases hp : pk = k
    · subst hp
      rw [show counterSet ((pk, pv) :: rest) pk v = (pk, v) :: rest from by
        simp [counterSet]]
      show (if pk = c then v else counterLookup rest c)
          = if c = pk then v else if pk = c then pv else counterLookup rest c
      rcases eq_or_ne pk c with hc | hc
      · subst hc
        rw [if_pos rfl, if_pos rfl]
      · rw [if_neg hc, if_neg (fun h => hc h.symm), if_neg hc]
    · rw [show counterSet ((pk, pv) :: rest) k v = (pk, pv) :: counterSet rest k v from by
        simp [counterSet, hp]]
      show (if pk = c then pv else counterLookup (counterSet rest k v) c)
          = if c = k then v else if pk = c then pv else counterLookup rest c
      rw [ih]
      rcases eq_or_ne pk c with hc | hc
      · subst hc
        rw [if_pos rfl, if_neg (fun h => hp h), if_pos rfl]
      · rw [if_neg hc]
        rcases eq_or_ne c k with hk | hk
        · rw [if_pos hk, if_pos hk]
        · rw [if_neg hk, if_neg hk, if_neg hc]

theorem mem_counterKeys_counterSet {l : List (String × Nat)} {k : String}
    {v : Nat} {c : String} :
    c ∈ counterKeys (counterSet l k v) ↔ c ∈ counterKeys l ∨ c = k := by
  induction l with
  | nil => simp [counterSet, counterKeys]
  | cons p rest ih =>
    obtain ⟨pk, pv⟩ := p
    simp only [counterSet]
    split_ifs with hp
    · subst hp
      simp only [counterKeys_cons, List.mem_cons]
      tauto
    · simp only [counterKeys_cons, List.mem_cons, ih]
      tauto

theorem nodupKeys_counterSet {l : List (String × Nat)} (k : String) (v : Nat)
    (h : nodupKeys l) : nodupKeys (counterSet l k v) := by
  induction l with
  | nil => simp [counterSet, nodupKeys, counterKeys]
  | cons p rest ih =>
    obtain ⟨pk, pv⟩ := p
    rw [nodupKeys_cons] at h
    simp only [counterSet]
    split_ifs with hp
    · subst hp
      exact nodupKeys_cons.mpr h
    · exact nodupKeys_cons.mpr
        ⟨fun hm => (mem_counterKeys_counterSet.mp hm).elim h.1 hp, ih h.2⟩

theorem counterLookup_counterMergeAdd (a : List (String × Nat))
    {b : List (String × Nat)} (c : String) (hb : nodupKeys b) :
    counterLookup (counterMergeAdd a b) c
      = counterLookup a c + counterLookup b c := by
  induction b generalizing a with
  | nil => simp [counterMergeAdd, counterLookup]
  | cons p rest ih =>
    obtain ⟨pk, pv⟩ := p
    rw [nodupKeys_cons] at hb
    have step : counterMergeAdd a ((pk, pv) :: rest)
        = counterMergeAdd (counterSet a pk (counterLookup a pk + pv)) rest := rfl
    rw [step, ih _ hb.2, counterLookup_counterSet]
    show _ = counterLookup a c + (if pk = c then pv else counterLookup rest c)
    rcases eq_or_ne c pk with hc | hc
    · subst hc
      rw [if_pos rfl, if_pos rfl, counterLookup_eq_zero hb.1]
      omega
    · rw [if_neg hc, if_neg (fun h => hc h.symm)]

theorem nodupKeys_counterMergeAdd {a : List (String × Nat)}
    (b : List (String × Nat)) (ha : nodupKeys a) :
    nodupKeys (counterMergeAdd a b) := by
  induction b generalizing a with
  | nil => exact ha
  | cons p rest ih => exact ih (nodupKeys_counterSet _ _ ha)

theorem nodupKeys_counterKeepPositive {l : List (String × Nat)}
    (h : nodupKeys l) : nodupKeys (counterKeepPositive l) :=
  List.Nodup.sublist (List.Sublist.map Prod.fst (List.filter_sublist l)) h

theorem counterLookup_counterKeepPositive {l : List (String × Nat)} (c : String)
    (h : nodupKeys l) :
    counterLookup (counterKeepPositive l) c = counterLookup l c := by
  induction l with
  | nil => rfl
  | cons p rest ih =>
    obtain ⟨pk, pv⟩ := p
    rw [nodupKeys_cons] at h
    by_cases hpos : 0 < pv
    · rw [show counterKeepPositive ((pk, pv) :: rest)
          = (pk, pv) :: counterKeepPositive rest from by
        simp [counterKeepPositive, hpos]]
      show (if pk = c then pv else counterLookup (counterKeepPositive rest) c)
          = if pk = c then pv else counterLookup rest c
      rw [ih h.2]
    · rw [show counterKeepPositive ((pk, pv) :: rest) = counterKeepPositive rest from by
        simp [counterKeepPositive, hpos]]
      rw [ih h.2]
      show counterLookup rest c = if pk = c then pv else counterLookup rest c
      rcases eq_or_ne pk c with hc | hc
      · subst hc
        rw [if_pos rfl, counterLookup_eq_zero h.1, Nat.eq_zero_of_not_pos hpos]
      · rw [if_neg hc]

theorem counterLookup_counterIAdd {a b : List (String × Nat)} (c : String)
    (ha : nodupKeys a) (hb : nodupKeys b) :
    counterLookup (counterIAdd a b) c = counterLookup a c + counterLookup b c := by
  rw [counterIAdd,
    counterLookup_counterKeepPositive c (nodupKeys_counterMergeAdd b ha),
    counterLookup_counterMergeAdd a c hb]

theorem nodupKeys_counterIAdd {a : List (String × Nat)}
    (b : List (String × Nat)) (ha : nodupKeys a) : nodupKeys (counterIAdd a b) :=
  nodupKeys_counterKeepPositive (nodupKeys_counterMergeAdd b ha)

/-! ## Extraction lemmas -/

theorem extractLoop_map_fst {α : Type} :
    ∀ (video : List α) (idx : Nat), idx ≤ 500 →
      (extractLoop video idx).map Prod.fst
        = List.range' idx (min video.length (500 - idx)) := by
  intro video
  induction video with
  | nil => intro idx _; simp [extractLoop]
  | cons f rest ih =>
    intro idx hidx
    by_cases h : idx = 500
    · simp [extractLoop, h]
    · have hlt : idx < 500 := lt_of_le_of_ne hidx h
      rw [show extractLoop (f :: rest) idx = (idx, f) :: extractLoop rest (idx + 1) from by
        simp [extractLoop, h]]
      rw [List.map_cons, ih (idx + 1) hlt]
      have harith : min (rest.length + 1) (500 - idx)
          = min rest.length (500 - (idx + 1)) + 1 := by omega
      rw [List.length_cons, harith, List.range'_succ]

theorem extractLoop_length {α : Type} (video : List α) (idx : Nat)
    (hidx : idx ≤ 500) :
    (extractLoop video idx).length = min video.length (500 - idx) := by
  have h := extractLoop_map_fst video idx hidx
  have hlen := congrArg List.length h
  rwa [List.length_map, List.length_range'] at hlen

/-! ## Comprehension lemmas -/

theorem pyDictComp_str (l : List (String × Nat)) (t : String) :
    pyDictComp l (.str t) = .ok (l.filter (fun p => strContains (strLower t) p.1)) := by
  induction l with
  | nil => rfl
  | cons p rest ih =>
    obtain ⟨k, v⟩ := p
    rw [show pyDictComp ((k, v) :: rest) (.str t)
        = (pyDictComp rest (.str t)).bind (fun tail =>
            pure (if strContains (strLower t) k then (k, v) :: tail else tail)) from rfl]
    rw [ih]
    by_cases h : strContains (strLower t) k
    · simp [h, Except.bind, List.filter_cons, pure, Except.pure]
    · simp [h, Except.bind, List.filter_cons, pure, Except.pure]

theorem pyDictComp_raises {t : PyVal} (ht : pyTargetLower t = .error e)
    (p : String × Nat) (rest : List (String × Nat)) :
    pyDictComp (p :: rest) t = .error e := by
  obtain ⟨k, v⟩ := p
  show (pyTargetLower t).bind _ = .error e
  rw [ht]
  rfl

theorem predictYolov8Summary_str (m : Nat → String) (l : List (Nat × Nat))
    (t : String) :
    predictYolov8Summary m l (.str t)
      = .ok ((l.map (fun p => (m p.1, p.2))).filter
          (fun p => strContains (strLower t) p.1)) := by
  induction l with
  | nil => rfl
  | cons p rest ih =>
    obtain ⟨k, v⟩ := p
    rw [show predictYolov8Summary m ((k, v) :: rest) (.str t)
        = (predictYolov8Summary m rest (.str t)).bind (fun tail =>
            pure (if strContains (strLower t) (m k) then (m k, v) :: tail else tail))
      from rfl]
    rw [ih]
    by_cases h : strContains (strLower t) (m k)
    · simp [h, Except.bind, List.filter_cons, pure, Except.pure]
    · simp [h, Except.bind, List.filter_cons, pure, Except.pure]

/-! ## Consolidation lemmas -/

theorem counterLookup_foldl_counterIAdd (c : String) :
    ∀ (rs : List (List (String × Nat))) (acc : List (String × Nat)),
      nodupKeys acc → (∀ r ∈ rs, nodupKeys r) →
      counterLookup (rs.foldl counterIAdd acc) c
        = counterLookup acc c + (rs.map (fun r => counterLookup r c)).sum
  | [], acc, _, _ => by simp
  | r :: rest, acc, hacc, hrs => by
    rw [List.foldl_cons,
      counterLookup_foldl_counterIAdd c rest (counterIAdd acc r)
        (nodupKeys_counterIAdd r hacc) (fun x hx => hrs x (List.mem_cons_of_mem r hx)),
      counterLookup_counterIAdd c hacc (hrs r (List.mem_cons_self r rest))]
    simp [Nat.add_assoc]

theorem foldl_inference_eq (results : List AnalysisResults) :
    results.foldl (fun acc r => counterIAdd acc r.inference_results)
        ([] : List (String × Nat))
      = (results.map (fun r => r.inference_results)).foldl counterIAdd [] :=
  (List.foldl_map _ _ _ _).symm

theorem nodupKeys_nil : nodupKeys [] := List.nodup_nil

theorem consolidate_counts_lookup (results : List AnalysisResults) (c : String)
    (h : ∀ r ∈ results, nodupKeys r.inference_results) :
    counterLookup
        (results.foldl (fun acc r => counterIAdd acc r.inference_results) []) c
      = (results.map (fun r => counterLookup r.inference_results c)).sum := by
  rw [foldl_inference_eq,
    counterLookup_foldl_counterIAdd c _ [] nodupKeys_nil
      (fun r hr => by
        obtain ⟨x, hx, rfl⟩ := List.mem_map.mp hr
        exact h x hx)]
  simp only [counterLookup, List.map_map, Nat.zero_add]
  rfl

/-! ## Claim theorems -/

/-- C1: for every finite mapping of per-frame inference results (keyed by
the contiguous frame indices `run_image_analysis` produces, represented
index-ordered, each frame's dict having the no-duplicate-key property of a
Python dict), the summary built by `AnalyzerService.consolidate_results` —
the `target_items_counts` accumulation of lines 114-121, the value it then
passes as the `summary` keyword — assigns to each class `c` a count equal
to the sum, over all frames, of that frame's count for `c`, taking `0`
when the class is absent from a frame.  (The pydantic construction of the
response object that follows raises, so this counter is the only summary
the function ever builds.) -/
theorem consolidate_results_summary_is_sum
    (results : List AnalysisResults) (c : String)
    (h : ∀ r ∈ results, nodupKeys r.inference_results) :
    counterLookup (consolidateSummaryCounts results) c
      = (results.map (fun r => counterLookup r.inference_results c)).sum :=
  consolidate_counts_lookup results c h

theorem consolidate_results_summary_is_sum_witness :
    counterLookup (consolidateSummaryCounts
        [⟨[("car", 2), ("person", 1)]⟩, ⟨[("car", 3)]⟩]) "car" = 5 := by
  rw [consolidate_results_summary_is_sum _ _ (by decide)]
  decide

/-- C5: evaluating `consolidate_results` on every service state and every
per-frame result list: after accumulating the counts it constructs the
pydantic `AnalyzeVideoResponse` with the required `results` field absent
(commented out at line 124) and a list passed for the `str` field
`target_item`, so the constructor's validation raises `ValidationError`
on every call — the program never builds a final response whose
`target_item` or `video_url` fields the claim could describe. -/
theorem consolidate_results_always_raises (svc : AnalyzerService)
    (results : List AnalysisResults) :
    consolidateResults svc results
      = .error (.validationError "field required") := rfl

theorem analyzeVideo_eq (validatorsUrl : String → Bool)
    (hubVersions : List String) (env : Cv2Env)
    (infer : Nat → List (String × Nat)) (req : AnalyzeVideoRequest) :
    analyzeVideo validatorsUrl hubVersions env infer req
      = match mkVideoData validatorsUrl req.video_url with
        | .error e => ⟨.http500 (pyErrorDetail e), false, false⟩
        | .ok _ =>
          ⟨.http500 (pyErrorDetail (.typeError unexpectedKwargMsg)), false, false⟩ := by
  unfold analyzeVideo
  cases mkVideoData validatorsUrl req.video_url with
  | error e => rfl
  | ok vd => rfl

/-- C2: every request to the `analyze_video` endpoint raises before any
frame is extracted — the handler constructs `DataPreparationService` with
the keyword argument `number_frames`, which `__init__` does not accept —
so the download is never attempted, the `number_of_frames` parameter never
influences anything, and every call returns the HTTP 500 error
response. -/
theorem analyze_video_always_http500 (validatorsUrl : String → Bool)
    (hubVersions : List String) (env : Cv2Env)
    (infer : Nat → List (String × Nat)) (req : AnalyzeVideoRequest) :
    (analyzeVideo validatorsUrl hubVersions env infer req).framesExtracted = false
    ∧ (analyzeVideo validatorsUrl hubVersions env infer req).downloadAttempted = false
    ∧ (∃ d, (analyzeVideo validatorsUrl hubVersions env infer req).outcome
        = .http500 d)
    ∧ ∀ n, analyzeVideo validatorsUrl hubVersions env infer
          { req with number_of_frames := n }
        = analyzeVideo validatorsUrl hubVersions env infer req := by
  refine ⟨?_, ?_, ?_, ?_⟩
  · rw [analyzeVideo_eq]
    cases mkVideoData validatorsUrl req.video_url with
    | error e => rfl
    | ok vd => rfl
  · rw [analyzeVideo_eq]
    cases mkVideoData validatorsUrl req.video_url with
    | error e => rfl
    | ok vd => rfl
  · rw [analyzeVideo_eq]
    cases mkVideoData validatorsUrl req.video_url with
    | error e => exact ⟨pyErrorDetail e, rfl⟩
    | ok vd => exact ⟨pyErrorDetail (.typeError unexpectedKwargMsg), rfl⟩
  · intro n
    obtain ⟨u, n0, t, m⟩ := req
    rfl

/-- C7: a string failing the generic URL-syntax validation makes the
`VideoData` constructor raise the invalid-URL `ValueError` — before any
network download or decode attempt: in the handler pipeline the download
is never attempted and the error itself is what surfaces as HTTP 500 —
while a string passing validation constructs the object with the URL
stored unchanged. -/
theorem video_url_validation (validatorsUrl : String → Bool) (url : String) :
    (validatorsUrl url = false →
      mkVideoData validatorsUrl url = .error (.valueError (invalidUrlMsg url))
      ∧ ∀ (hubVersions : List String) (env : Cv2Env)
          (infer : Nat → List (String × Nat)) (n : Nat) (t : String)
          (m : ModelChoices),
          (analyzeVideo validatorsUrl hubVersions env infer
              ⟨url, n, t, m⟩).downloadAttempted = false
          ∧ (analyzeVideo validatorsUrl hubVersions env infer
              ⟨url, n, t, m⟩).outcome = .http500 (invalidUrlMsg url))
    ∧ (validatorsUrl url = true → mkVideoData validatorsUrl url = .ok ⟨url⟩) := by
  constructor
  · intro hv
    have hmk : mkVideoData validatorsUrl url
        = .error (.valueError (invalidUrlMsg url)) := by
      show (if validatorsUrl url then Except.ok (⟨url⟩ : VideoData)
          else Except.error (PyError.valueError (invalidUrlMsg url))) = _
      rw [if_neg (by simp [hv])]
    refine ⟨hmk, fun hubVersions env infer n t m => ?_⟩
    rw [analyzeVideo_eq]
    show (match mkVideoData validatorsUrl url with
        | Except.error e =>
          (⟨.http500 (pyErrorDetail e), false, false⟩ : HandlerRun)
        | Except.ok _ =>
          ⟨.http500 (pyErrorDetail (.typeError unexpectedKwargMsg)),
            false, false⟩).downloadAttempted = false
      ∧ (match mkVideoData validatorsUrl url with
        | Except.error e =>
          (⟨.http500 (pyErrorDetail e), false, false⟩ : HandlerRun)
        | Except.ok _ =>
          ⟨.http500 (pyErrorDetail (.typeError unexpectedKwargMsg)),
            false, false⟩).outcome = .http500 (invalidUrlMsg url)
    rw [hmk]
    exact ⟨rfl, rfl⟩
  · intro hv
    show (if validatorsUrl url then Except.ok (⟨url⟩ : VideoData)
        else Except.error (PyError.valueError (invalidUrlMsg url))) = _
    rw [if_pos (by simp [hv])]

theorem video_url_validation_witness :
    mkVideoData (fun _ => false) "not-a-url"
      = .error (.valueError (invalidUrlMsg "not-a-url"))
    ∧ mkVideoData (fun _ => true) "https://youtu.be/MNn9qKG2UFI"
      = .ok ⟨"https://youtu.be/MNn9qKG2UFI"⟩ :=
  ⟨((video_url_validation (fun _ => false) "not-a-url").1 rfl).1,
    (video_url_validation (fun _ => true) "https://youtu.be/MNn9qKG2UFI").2 rfl⟩

/-- C6: whenever frame extraction succeeds, the produced mapping has keys
that are the contiguous integers starting at `0`, and the number of
produced frames neither exceeds the frame cap — the constant `500` the
extraction loop stops at — nor the number of frames the video actually
decodes to: the loop stops at end-of-stream or at the cap, whichever comes
first. -/
theorem extraction_frames_contiguous_and_capped (vd : VideoData) (env : Cv2Env)
    (fileExtension : String) (res : List (Nat × Nat))
    (h : extractionOfVideoFrames vd env fileExtension = .ok res) :
    res.map Prod.fst = List.range res.length
    ∧ res.length ≤ 500 ∧ res.length ≤ env.decodedFrames.length := by
  have hres : res = extractLoop env.decodedFrames 0 := by
    unfold extractionOfVideoFrames at h
    cases hd : downloadStream vd env fileExtension with
    | error e => rw [hd] at h; cases h
    | ok path =>
      rw [hd] at h
      replace h : (if env.fileExists path
          then Except.ok (extractLoop env.decodedFrames 0)
          else Except.error
            (PyError.fileNotFoundError (fileNotFoundMsg path)))
          = Except.ok res := h
      by_cases hex : env.fileExists path
      · rw [if_pos hex] at h
        cases h
        rfl
      · rw [if_neg hex] at h
        cases h
  subst hres
  have hmap := extractLoop_map_fst env.decodedFrames 0 (by omega)
  have hlen := extractLoop_length env.decodedFrames 0 (by omega)
  rw [Nat.sub_zero] at hmap hlen
  refine ⟨?_, ?_, ?_⟩
  · rw [hmap, hlen, List.range_eq_range']
  · rw [hlen]
    exact Nat.min_le_right _ _
  · rw [hlen]
    exact Nat.min_le_left _ _

theorem extraction_frames_contiguous_and_capped_witness :
    (([(0, 7), (1, 9)] : List (Nat × Nat)).map Prod.fst
        = List.range ([(0, 7), (1, 9)] : List (Nat × Nat)).length)
    ∧ ([(0, 7), (1, 9)] : List (Nat × Nat)).length ≤ 500
    ∧ ([(0, 7), (1, 9)] : List (Nat × Nat)).length ≤ ([7, 9] : List Nat).length :=
  extraction_frames_contiguous_and_capped ⟨"https://youtu.be/MNn9qKG2UFI"⟩
    ⟨["mp4"], "/tmp/output_video.mp4", fun _ => true, [7, 9]⟩ "mp4"
    [(0, 7), (1, 9)] rfl

/-- C8 counterexample: on an existing downloaded file from which no frame
can be read, `extraction_of_video_frames` does not fail with a decode
error — it returns the empty mapping successfully, so the decode-error
half of the claim is false. -/
theorem extraction_empty_video_no_error :
    extractionOfVideoFrames ⟨"https://youtu.be/MNn9qKG2UFI"⟩
        ⟨["mp4"], "/tmp/output_video.mp4", fun _ => true, []⟩ "mp4"
      = .ok []
    ∧ ∀ e, extractionOfVideoFrames ⟨"https://youtu.be/MNn9qKG2UFI"⟩
        ⟨["mp4"], "/tmp/output_video.mp4", fun _ => true, []⟩ "mp4"
      ≠ .error e := by
  constructor
  · rfl
  · intro e h
    rw [show extractionOfVideoFrames ⟨"https://youtu.be/MNn9qKG2UFI"⟩
        ⟨["mp4"], "/tmp/output_video.mp4", fun _ => true, []⟩ "mp4"
      = .ok [] from rfl] at h
    exact Except.noConfusion h

/-- C8 amended: when a matching stream exists, frame extraction fails with
the file-not-found error exactly when the downloaded file path does not
exist; when the path exists but no frames can be read, it returns the
empty mapping without raising any error (the code has no decode error). -/
theorem extraction_file_errors (vd : VideoData) (env : Cv2Env) (ext : String)
    (hstream : (env.streamFormats.filter (fun s => s = ext)).isEmpty = false) :
    (env.fileExists env.downloadPath = false →
      extractionOfVideoFrames vd env ext
        = .error (.fileNotFoundError (fileNotFoundMsg env.downloadPath)))
    ∧ (env.fileExists env.downloadPath = true → env.decodedFrames = [] →
      extractionOfVideoFrames vd env ext = .ok []) := by
  have hd : downloadStream vd env ext = .ok env.downloadPath := by
    show (if (env.streamFormats.filter (fun s => s = ext)).isEmpty
        then Except.error (PyError.typeError (noStreamMsg ext vd.url))
        else Except.ok env.downloadPath) = _
    rw [if_neg (by simp [hstream])]
  constructor
  · intro hex
    unfold extractionOfVideoFrames
    rw [hd]
    show (if env.fileExists env.downloadPath
        then Except.ok (extractLoop env.decodedFrames 0)
        else Except.error (PyError.fileNotFoundError
          (fileNotFoundMsg env.downloadPath))) = _
    rw [if_neg (by simp [hex])]
  · intro hex hempty
    unfold extractionOfVideoFrames
    rw [hd]
    show (if env.fileExists env.downloadPath
        then Except.ok (extractLoop env.decodedFrames 0)
        else Except.error (PyError.fileNotFoundError
          (fileNotFoundMsg env.downloadPath))) = _
    rw [if_pos (by simp [hex]), hempty]
    rfl

theorem extraction_file_errors_witness :
    (extractionOfVideoFrames ⟨"https://youtu.be/MNn9qKG2UFI"⟩
        ⟨["mp4"], "/tmp/output_video.mp4", fun _ => false, [5]⟩ "mp4"
      = .error (.fileNotFoundError (fileNotFoundMsg "/tmp/output_video.mp4")))
    ∧ (extractionOfVideoFrames ⟨"https://youtu.be/MNn9qKG2UFI"⟩
        ⟨["mp4"], "/tmp/output_video.mp4", fun _ => true, []⟩ "mp4"
      = .ok []) :=
  ⟨(extraction_file_errors ⟨"https://youtu.be/MNn9qKG2UFI"⟩
      ⟨["mp4"], "/tmp/output_video.mp4", fun _ => false, [5]⟩ "mp4" rfl).1 rfl,
    (extraction_file_errors ⟨"https://youtu.be/MNn9qKG2UFI"⟩
      ⟨["mp4"], "/tmp/output_video.mp4", fun _ => true, []⟩ "mp4" rfl).2 rfl rfl⟩

/-- C9: constructing the detection model with a family outside
{yolov5, yolov8} fails with the unsupported-model-family `ValueError`
having performed no external operation at all — in particular before any
download occurs — and a version not in the chosen family's accepted list
(the `torch.hub` listing for yolov5, the literal list for yolov8) fails
with the unsupported-model-version `ValueError`. -/
theorem load_model_family_version_errors :
    (∀ (hubVersions : List String) (family version : String),
      family ∉ acceptedModelFamily →
      loadModel hubVersions family version
        = (.error (.valueError (invalidModelFamilyMsg family)), []))
    ∧ (∀ (hubVersions : List String) (version : String),
      version ∉ hubVersions →
      (loadModel hubVersions "yolov5" version).1
        = .error (.valueError (invalidModelVersionMsg version)))
    ∧ (∀ (hubVersions : List String) (version : String),
      version ∉ yolov8Versions →
      (loadModel hubVersions "yolov8" version).1
        = .error (.valueError (invalidModelVersionMsg version))) := by
  refine ⟨fun hub family version h => ?_, fun hub version h => ?_,
    fun hub version h => ?_⟩
  · unfold loadModel
    rw [if_pos h]
  · unfold loadModel
    rw [if_neg (by decide : ¬ ("yolov5" ∉ acceptedModelFamily)),
      if_pos rfl, if_pos h]
  · unfold loadModel
    rw [if_neg (by decide : ¬ ("yolov8" ∉ acceptedModelFamily)),
      if_neg (by decide : ¬ ("yolov8" = "yolov5")), if_pos h]

theorem load_model_family_version_errors_witness :
    loadModel ["yolov5s"] "yolov99" "yolov5s"
      = (.error (.valueError (invalidModelFamilyMsg "yolov99")), [])
    ∧ (loadModel ["yolov5s"] "yolov5" "nope").1
      = .error (.valueError (invalidModelVersionMsg "nope"))
    ∧ (loadModel ["yolov5s"] "yolov8" "nope").1
      = .error (.valueError (invalidModelVersionMsg "nope")) :=
  ⟨load_model_family_version_errors.1 ["yolov5s"] "yolov99" "yolov5s" (by decide),
    load_model_family_version_errors.2.1 ["yolov5s"] "nope" (by decide),
    load_model_family_version_errors.2.2 ["yolov5s"] "nope" (by decide)⟩

/-- C3: calling `predict` with a confidence value outside `(0, 1]` — for
example `0` or `1.5` — does not raise; the prediction proceeds with the
confidence silently replaced by the default value `0.45`
(`model_confidence_value = 45/100`). -/
theorem predict_out_of_range_confidence (detections : List (String × Nat))
    (s : String) (v : ℚ) (h : v ≤ 0 ∨ 1 < v) :
    yoloModelPredict detections (.str s) (some v)
      = .ok ⟨modelConfidenceValue,
          detections.filter (fun p => strContains (strLower s) p.1)⟩
    ∧ modelConfidenceValue = 45 / 100 := by
  constructor
  · have hn : normalizeModelConfidence (some v) = modelConfidenceValue := by
      show (if pyFalsyFloat v ∨ v ≤ 0 ∨ 1 < v then modelConfidenceValue else v) = _
      rw [if_pos (Or.inr h)]
    show (match pyDictComp detections (.str s) with
      | Except.error e => Except.error e
      | Except.ok summary =>
        Except.ok (PredictResult.mk (normalizeModelConfidence (some v)) summary)) = _
    rw [pyDictComp_str, hn]
  · norm_num [modelConfidenceValue]

theorem predict_out_of_range_confidence_witness :
    yoloModelPredict [("person", 1)] (.str "person") (some 0)
      = .ok ⟨modelConfidenceValue, [("person", 1)]⟩
    ∧ ((0 : ℚ) ≤ 0 ∨ 1 < (0 : ℚ)) := by
  have h := predict_out_of_range_confidence [("person", 1)] "person" 0
    (Or.inl le_rfl)
  refine ⟨?_, Or.inl le_rfl⟩
  rw [h.1]
  rfl

/-- C4 counterexample: with the requested target "teddy bear", a frame
whose detections are {"bear": 1} yields a `class_counts` containing the
key "bear", which is not among the requested class name(s): the filter is
substring containment (`"bear" in "teddy bear"`), not name membership.
Both family branches behave alike. -/
theorem predict_filter_not_exact_names :
    yoloModelPredict [("bear", 1)] (.str "teddy bear") (some modelConfidenceValue)
      = .ok ⟨modelConfidenceValue, [("bear", 1)]⟩
    ∧ predictYolov8Summary (fun _ => "bear") [(21, 1)] (.str "teddy bear")
      = .ok [("bear", 1)]
    ∧ "bear" ≠ "teddy bear" := by
  have hn : normalizeModelConfidence (some modelConfidenceValue)
      = modelConfidenceValue := by
    show (if pyFalsyFloat modelConfidenceValue ∨ modelConfidenceValue ≤ 0
        ∨ 1 < modelConfidenceValue
        then modelConfidenceValue else modelConfidenceValue) = _
    exact ite_self _
  refine ⟨?_, rfl, by decide⟩
  show (match pyDictComp [("bear", 1)] (.str "teddy bear") with
    | Except.error e => Except.error e
    | Except.ok summary =>
      Except.ok (PredictResult.mk
        (normalizeModelConfidence (some modelConfidenceValue)) summary)) = _
  rw [pyDictComp_str, hn]
  rfl

/-- C4 amended: with a string target filter, `class_counts` consists of
exactly those detected classes whose names occur as substrings of the
lowercased target string (counts preserved), in both family branches;
all detected classes are returned precisely in the degenerate case where
every detected name is such a substring, and there is no unfiltered
path. -/
theorem predict_filter_substring (detections : List (String × Nat))
    (t : String) (conf : Option ℚ) (m : Nat → String)
    (idCounts : List (Nat × Nat)) :
    yoloModelPredict detections (.str t) conf
      = .ok ⟨normalizeModelConfidence conf,
          detections.filter (fun p => strContains (strLower t) p.1)⟩
    ∧ predictYolov8Summary m idCounts (.str t)
      = .ok ((idCounts.map (fun p => (m p.1, p.2))).filter
          (fun p => strContains (strLower t) p.1)) := by
  constructor
  · show (match pyDictComp detections (.str t) with
      | Except.error e => Except.error e
      | Except.ok summary =>
        Except.ok (PredictResult.mk (normalizeModelConfidence conf) summary)) = _
    rw [pyDictComp_str]
  · exact predictYolov8Summary_str m idCounts t

/-- C10 counterexample: on an image with no detections the comprehension
has no items, so `.lower()` is never evaluated and `predict` with
`target_name` `None` or a list returns the empty summary without raising —
refuting "for every input image ... raises an AttributeError". -/
theorem predict_nonstr_target_empty_image_no_raise :
    yoloModelPredict [] PyVal.none (some modelConfidenceValue)
      = .ok ⟨modelConfidenceValue, []⟩
    ∧ yoloModelPredict [] (.list ["car"]) (some modelConfidenceValue)
      = .ok ⟨modelConfidenceValue, []⟩ := by
  have hn : normalizeModelConfidence (some modelConfidenceValue)
      = modelConfidenceValue := by
    show (if pyFalsyFloat modelConfidenceValue ∨ modelConfidenceValue ≤ 0
        ∨ 1 < modelConfidenceValue
        then modelConfidenceValue else modelConfidenceValue) = _
    exact ite_self _
  constructor
  · show Except.ok (PredictResult.mk
      (normalizeModelConfidence (some modelConfidenceValue)) []) = _
    rw [hn]
  · show Except.ok (PredictResult.mk
      (normalizeModelConfidence (some modelConfidenceValue)) []) = _
    rw [hn]

/-- C10 amended: whenever the frame has at least one detection, calling
`predict` with `target_name` given as a list or as `None` raises
`AttributeError` — both family branches call `.lower()` on it when
evaluating the comprehension condition at the first item — while on a
frame with no detections it returns the empty summary without raising. -/
theorem predict_nonstr_target_raises (d : String × Nat)
    (ds : List (String × Nat)) (conf : Option ℚ) :
    (yoloModelPredict (d :: ds) PyVal.none conf
      = .error (.attributeError "NoneType object has no attribute lower"))
    ∧ (∀ l, yoloModelPredict (d :: ds) (.list l) conf
      = .error (.attributeError "list object has no attribute lower"))
    ∧ (∀ (m : Nat → String) (i : Nat × Nat) (is : List (Nat × Nat)),
      predictYolov8Summary m (i :: is) PyVal.none
        = .error (.attributeError "NoneType object has no attribute lower"))
    ∧ yoloModelPredict [] PyVal.none conf
      = .ok ⟨normalizeModelConfidence conf, []⟩ := by
  obtain ⟨k, v⟩ := d
  refine ⟨?_, fun l => ?_, fun m i is => ?_, rfl⟩
  · show (match pyDictComp ((k, v) :: ds) PyVal.none with
      | Except.error e => Except.error e
      | Except.ok summary =>
        Except.ok (PredictResult.mk (normalizeModelConfidence conf) summary)) = _
    rw [pyDictComp_raises (show pyTargetLower PyVal.none = Except.error
      (.attributeError "NoneType object has no attribute lower") from rfl) (k, v) ds]
  · show (match pyDictComp ((k, v) :: ds) (.list l) with
      | Except.error e => Except.error e
      | Except.ok summary =>
        Except.ok (PredictResult.mk (normalizeModelConfidence conf) summary)) = _
    rw [pyDictComp_raises (show pyTargetLower (.list l) = Except.error
      (.attributeError "list object has no attribute lower") from rfl) (k, v) ds]
  · obtain ⟨ik, iv⟩ := i
    rfl
